import Mathlib

/-!
Shallow embedding of `ephemeris/shed_tools.py` (install orchestration core)
and verification of its specification claims.

Python dicts describing repositories are modelled as records of optional
fields: `none` models a key that is absent (the program's data never stores
an explicit `None` under the identity keys, so key-absent and value-`None`
coincide everywhere the embedded code reads them with `dict.get`).
Effectful pieces are modelled by explicit state passing over oracles:
the tool-shed registry, the host inventory, the host install call and the
poll stream of `wait_for_install` are parameters collected in `Env`.
Exceptions are modelled with `Except PyErr`.
-/

set_option autoImplicit false

namespace ShedTools

/-- Python exceptions that the embedded code can raise. -/
inductive PyErr where
  | keyError (key : String)
  | nameError (var : String)
  | typeError
  | valueError (msg : String)
  deriving Repr, DecidableEq

/-- A raw repository dict (`DesiredPackageSpec` or inventory entry):
every field optional, `none` meaning the key is absent. -/
structure RepoInfo where
  name : Option String := none
  owner : Option String := none
  changeset_revision : Option String := none
  revisions : Option (List String) := none
  tool_shed : Option String := none
  tool_shed_url : Option String := none
  tool_panel_section_id : Option String := none
  tool_panel_section_label : Option String := none
  deriving Repr, DecidableEq

/-- Python substring test on character lists: `begins n h` is
`h.startswith(n)`. -/
def begins : List Char → List Char → Bool
  | [], _ => true
  | _ :: _, [] => false
  | a :: as, b :: bs => a = b && begins as bs

/-- `containsSub h n` is the Python expression `n in h` on strings
(contiguous-substring test), on character lists. -/
def containsSub : List Char → List Char → Bool
  | [], needle => begins needle []
  | c :: t, needle => begins needle (c :: t) || containsSub t needle

/-- Python `needle in hay` for strings. -/
def py_in (needle hay : String) : Bool :=
  containsSub hay.toList needle.toList

/-- `repo.get('tool_shed', repo.get('tool_shed_url', None))`
(the registry-URL field used by `the_same_repository`). -/
def repo_tool_shed (r : RepoInfo) : Option String :=
  match r.tool_shed with
  | some u => some u
  | none => r.tool_shed_url

/-- `the_same_repository(repo_1_info, repo_2_info)` from shed_tools.py.
The nested equality checks in the source short-circuit to `return False`;
when all three identity fields agree, the URL test `t1ts in t2ts or
t2ts in t1ts` raises `TypeError` in Python if either operand is `None`
(missing both `tool_shed` and `tool_shed_url` keys). -/
def the_same_repository (repo_1_info repo_2_info : RepoInfo) : Except PyErr Bool :=
  if repo_1_info.changeset_revision = repo_2_info.changeset_revision then
    if repo_1_info.name = repo_2_info.name then
      if repo_1_info.owner = repo_2_info.owner then
        match repo_tool_shed repo_1_info, repo_tool_shed repo_2_info with
        | some t1ts, some t2ts => .ok (py_in t1ts t2ts || py_in t2ts t1ts)
        | _, _ => .error .typeError
      else .ok false
    else .ok false
  else .ok false

/-- `_flatten_repo_info(repositories)` from shed_tools.py.

The source appends the SAME dict object `repo_info` once per listed
revision while mutating it in place (`repo_info['changeset_revision'] =
revision`), so by the time the function returns every one of those list
items is the one dict in its final state: `revisions` popped and
`changeset_revision` equal to the LAST listed revision.  An empty
`revisions` list emits nothing.  Specs without a `revisions` key are
appended unchanged. -/
def _flatten_repo_info (repositories : List RepoInfo) : List RepoInfo :=
  repositories.flatMap (fun repo_info =>
    match repo_info.revisions with
    | none => [repo_info]
    | some revisions =>
      match revisions.getLast? with
      | none => []
      | some last =>
        revisions.map (fun _ =>
          { repo_info with revisions := none, changeset_revision := some last }))

/-- Python `s.startswith(p)`. -/
def py_startswith (s p : String) : Bool :=
  begins p.toList s.toList

/-- Python `s.endswith(p)`. -/
def py_endswith (s p : String) : Bool :=
  begins p.toList.reverse s.toList.reverse

/-- `format_tool_shed_url(tool_shed_url)` from shed_tools.py: first
ensure a trailing slash, then ensure an `http` scheme. -/
def format_tool_shed_url (tool_shed_url : String) : String :=
  let f := if py_endswith tool_shed_url "/" then tool_shed_url else tool_shed_url ++ "/"
  if py_startswith f "http" then f else "https://" ++ f

/-- The dict built by `complete_repo_information`: exactly the keys
`name`, `owner`, `tool_panel_section_id`, `tool_panel_section_label`,
`tool_shed_url`, `changeset_revision`; `name`, `owner`, `tool_shed_url`
always carry strings, the rest may hold `None`. -/
structure CompletedRepo where
  name : String
  owner : String
  tool_panel_section_id : Option String
  tool_panel_section_label : Option String
  tool_shed_url : String
  changeset_revision : Option String
  deriving Repr, DecidableEq

/-- `complete_repo_information(tool, default_toolshed_url,
require_tool_panel_info)` from shed_tools.py.  Missing `name`/`owner`
raise `KeyError`; a non-data-manager tool with neither panel-section
field raises `KeyError` as well (message abbreviated to the offending
field group). -/
def complete_repo_information (tool : RepoInfo) (default_toolshed_url : String)
    (require_tool_panel_info : Bool) : Except PyErr CompletedRepo :=
  match tool.name with
  | none => .error (.keyError "name")
  | some name =>
    match tool.owner with
    | none => .error (.keyError "owner")
    | some owner =>
      if require_tool_panel_info ∧ tool.tool_panel_section_id = none ∧
          tool.tool_panel_section_label = none ∧ py_in "data_manager" name = false then
        .error (.keyError "tool_panel_section")
      else
        .ok { name := name, owner := owner,
              tool_panel_section_id := tool.tool_panel_section_id,
              tool_panel_section_label := tool.tool_panel_section_label,
              tool_shed_url := format_tool_shed_url
                (tool.tool_shed_url.getD default_toolshed_url),
              changeset_revision := tool.changeset_revision }

/-- `get_changeset_revisions(repository, force_latest_revision)` from
shed_tools.py.  The registry oracle stands for
`ToolShedInstance(url).repositories.get_ordered_installable_revisions
(name, owner)`.  Returns `none` when the registry reports no installable
revisions (repo does not exist on that tool shed). -/
def get_changeset_revisions (registry : String → String → String → List String)
    (force_latest_revision : Bool) (repository : CompletedRepo) : Option CompletedRepo :=
  if repository.changeset_revision.isNone || force_latest_revision then
    match (registry repository.tool_shed_url repository.name repository.owner).getLast? with
    | none => none
    | some last => some { repository with changeset_revision := some last }
  else
    some repository

/-- A connection error raised by a bioblend client call: the driver
inspects `e.message` and `e.body`. -/
structure ConnErr where
  message : String
  body : String
  deriving Repr, DecidableEq

/-- The repository dict as adjusted by `install_repository_revision`
before the bioblend call: `tool_panel_section_label` popped,
`new_tool_panel_section_label` added with its value; all other keys of
the completed dict unchanged. -/
structure BioblendRepo where
  name : String
  owner : String
  tool_panel_section_id : Option String
  new_tool_panel_section_label : Option String
  tool_shed_url : String
  changeset_revision : Option String
  deriving Repr, DecidableEq

/-- The in-place adjustment on line
`repository['new_tool_panel_section_label'] =
repository.pop('tool_panel_section_label')`. -/
def adjust_to_bioblend (repository : CompletedRepo) : BioblendRepo :=
  { name := repository.name,
    owner := repository.owner,
    tool_panel_section_id := repository.tool_panel_section_id,
    new_tool_panel_section_label := repository.tool_panel_section_label,
    tool_shed_url := repository.tool_shed_url,
    changeset_revision := repository.changeset_revision }

/-- `InstallToolManager.install_repository_revision(repository)`:
mutates the caller's dict first, then issues the install call.  The
first component of the result is the caller-visible state of the dict
after the call (the mutation persists whether the call returns or
raises); the second is the call's outcome. -/
def install_repository_revision (install : BioblendRepo → Except ConnErr Unit)
    (repository : CompletedRepo) : BioblendRepo × Except ConnErr Unit :=
  (adjust_to_bioblend repository, install (adjust_to_bioblend repository))

/-- An entry of `tool_shed_client.get_repositories()` as read by
`wait_for_install` (keys accessed with `[]`, so mandatory). -/
structure InvEntry where
  name : String
  owner : String
  status : String
  deriving Repr, DecidableEq

/-- One fetch of the host inventory inside `wait_for_install`: either a
snapshot of entries or a `ConnectionError`. -/
inductive PollResult where
  | snap (entries : List InvEntry)
  | connErr
  deriving Repr, DecidableEq

/-- The scan of one inventory snapshot inside `wait_for_install`'s
`for installing_repo in installed_repo_list` loop: the first entry with
matching name and owner whose status is terminal decides (`some true`
for "Installed", `some false` for "Error"); each matching entry with a
non-terminal status costs one `time.sleep(10)`.  Returns the decision
and the number of sleeps taken before it (all matching non-terminal
entries when there is no decision). -/
def scan_repositories (b : BioblendRepo) : List InvEntry → Option Bool × Nat
  | [] => (none, 0)
  | e :: es =>
    if b.name = e.name ∧ e.owner = b.owner then
      if e.status = "Installed" then (some true, 0)
      else if e.status = "Error" then (some false, 0)
      else
        let p := scan_repositories b es
        (p.1, p.2 + 1)
    else scan_repositories b es

/-- One iteration body of `wait_for_install`'s while loop at poll index
`k`: a `ConnectionError` from `get_repositories` costs one sleep
(`except` branch); a snapshot is scanned. -/
def poll_step (polls : Nat → PollResult) (b : BioblendRepo) (k : Nat) :
    Option Bool × Nat :=
  match polls k with
  | .connErr => (none, 1)
  | .snap entries => scan_repositories b entries

/-- The while loop of `wait_for_install`, over discrete time: the
remaining budget starts at `timeout` seconds, each inventory fetch
costs 1 second and each `time.sleep(10)` costs 10, so one iteration at
poll `k` consumes `1 + 10 * sleeps`.  `k` is the global poll counter
(threaded so that successive fetches observe successive snapshots).
`fuel` only bounds the structural recursion: every iteration consumes
at least one second of `remaining`, so with `fuel = remaining` the
budget reaches 0 no later than the fuel does and the fuel-0 branch
coincides with the timeout result `(false, k)`.  Returns the boolean
result and the next poll index. -/
def wait_loop (polls : Nat → PollResult) (b : BioblendRepo) :
    Nat → Nat → Nat → Bool × Nat
  | 0, _, k => (false, k)
  | _, 0, k => (false, k)
  | fuel + 1, remaining + 1, k =>
    match poll_step polls b k with
    | (some decision, _) => (decision, k + 1)
    | (none, sleeps) => wait_loop polls b fuel (remaining - 10 * sleeps) (k + 1)

/-- `InstallToolManager.wait_for_install(repository, timeout)`. -/
def wait_for_install (polls : Nat → PollResult) (repository : BioblendRepo)
    (timeout : Nat) (k : Nat) : Bool × Nat :=
  wait_loop polls repository timeout timeout k

/-- Record returned by `log_repository_install_success`
(keys `name`, `owner`, `revision`). -/
structure SuccessRecord where
  name : String
  owner : String
  revision : Option String
  deriving Repr, DecidableEq

/-- Record returned by `log_repository_install_skip`
(keys `name`, `owner`, `changeset_revision`). -/
structure SkipRecord where
  name : String
  owner : String
  changeset_revision : Option String
  deriving Repr, DecidableEq

/-- Record returned by `log_repository_install_error`
(keys `name`, `owner`, `revision`, `error`). -/
structure ErrorRecord where
  name : String
  owner : String
  revision : Option String
  error : String
  deriving Repr, DecidableEq

/-- `log_repository_install_success(repository, ...)` — reads the
(already adjusted) repository dict. -/
def log_repository_install_success (b : BioblendRepo) : SuccessRecord :=
  { name := b.name, owner := b.owner, revision := b.changeset_revision }

/-- `log_repository_install_skip(repository, ...)`. -/
def log_repository_install_skip (r : CompletedRepo) : SkipRecord :=
  { name := r.name, owner := r.owner, changeset_revision := r.changeset_revision }

/-- `log_repository_install_error(repository, start, msg, ...)` on a
driver-stage repository dict. -/
def log_repository_install_error (b : BioblendRepo) (msg : String) : ErrorRecord :=
  { name := b.name, owner := b.owner, revision := b.changeset_revision, error := msg }

/-- The accumulation sites in `install_tools` read
`installed_repositories += log_repository_install_success(...)` (and
likewise for skip and error records).  In Python `list += dict` extends
the list with the DICT'S KEYS in insertion order — the record's values
are discarded.  These three functions give the key sequences a `+=`
contributes; they take the record dict as (ignored) argument to mirror
the call sites. -/
def success_record_keys (_r : SuccessRecord) : List String :=
  ["name", "owner", "revision"]

/-- Keys contributed by `skipped_repositories +=
log_repository_install_skip(...)`. -/
def skip_record_keys (_r : SkipRecord) : List String :=
  ["name", "owner", "changeset_revision"]

/-- Keys contributed by `errored_repositories +=
log_repository_install_error(...)`. -/
def error_record_keys (_r : ErrorRecord) : List String :=
  ["name", "owner", "revision", "error"]

/-- The external collaborators of `install_tools`, as oracles. -/
structure Env where
  /-- `ToolShedInstance(url).repositories.get_ordered_installable_revisions(name, owner)` -/
  registry : String → String → String → List String
  /-- `self.installed_tools`: the raw tool list reported by the host
  (before the property's per-revision flattening). -/
  installed_tools : List RepoInfo
  /-- `self.tool_shed_client.install_repository_revision(**repository)` -/
  install : BioblendRepo → Except ConnErr Unit
  /-- successive results of `self.tool_shed_client.get_repositories()`
  inside `wait_for_install` -/
  polls : Nat → PollResult

/-- The `installed_repos` property:
`_flatten_repo_info(self.installed_tools)`. -/
def installed_repos (installed_tools : List RepoInfo) : List RepoInfo :=
  _flatten_repo_info installed_tools

/-- The view of a completed repository dict as a generic dict, as it is
handed to `the_same_repository` by the filter (the completed dict has
exactly the six keys listed in `CompletedRepo`). -/
def completed_view (r : CompletedRepo) : RepoInfo :=
  { name := some r.name, owner := some r.owner,
    changeset_revision := r.changeset_revision,
    revisions := none, tool_shed := none, tool_shed_url := some r.tool_shed_url,
    tool_panel_section_id := r.tool_panel_section_id,
    tool_panel_section_label := r.tool_panel_section_label }

/-- Inner loop of `filter_installed_repos`
(`for installed_tool in self.installed_repos`): note the source has no
`break` and the `else` is attached to the `if`, so the current repo is
appended once per inventory entry — to `already_installed_repos` on a
match and to `not_installed_repos` otherwise. -/
def filter_inner {α : Type} (installed : List RepoInfo) (view : α → RepoInfo)
    (repo : α) (acc : List α × List α) : Except PyErr (List α × List α) :=
  match installed with
  | [] => .ok acc
  | installed_tool :: rest =>
    match the_same_repository installed_tool (view repo) with
    | .error e => .error e
    | .ok same =>
      filter_inner rest view repo
        (if same then (acc.1, acc.2 ++ [repo]) else (acc.1 ++ [repo], acc.2))

/-- Outer loop of `filter_installed_repos` (`for repo in repos`). -/
def filter_loop {α : Type} (installed : List RepoInfo) (view : α → RepoInfo) :
    List α → List α × List α → Except PyErr (List α × List α)
  | [], acc => .ok acc
  | repo :: rest, acc =>
    match filter_inner installed view repo acc with
    | .error e => .error e
    | .ok acc2 => filter_loop installed view rest acc2

/-- `InstallToolManager.filter_installed_repos(repos)`: returns
`(not_installed_repos, already_installed_repos)`.  `view` injects the
element type into the generic dict shape (the source is duck-typed). -/
def filter_installed_repos {α : Type} (installed_tools : List RepoInfo)
    (view : α → RepoInfo) (repos : List α) : Except PyErr (List α × List α) :=
  filter_loop (installed_repos installed_tools) view repos ([], [])

/-- The literal in `install_tools` (two adjacent string literals in the
source concatenate). -/
def default_err_msg : String :=
  "All repositories that you are attempting to install have been previously installed."

/-- The closure `set_defaults_in_repo_information(repository)` defined
inside `install_tools`.  When `complete_repo_information` raises
`KeyError`, the handler calls
`log_repository_install_error(repository, start, e.message)`; at that
point the enclosing local `start` is not yet assigned (it is first
assigned later, in the install loop), so evaluating the argument raises
`NameError` and the run aborts. -/
def set_defaults_in_repo_information (registry : String → String → String → List String)
    (force_latest_revision : Bool) (default_toolshed : String)
    (repository : RepoInfo) : Except PyErr (Option CompletedRepo) :=
  match complete_repo_information repository default_toolshed true with
  | .error (.keyError _) => .error (.nameError "start")
  | .error e => .error e
  | .ok complete_repo =>
    .ok (get_changeset_revisions registry force_latest_revision complete_repo)

/-- The list comprehension
`[set_defaults_in_repo_information(repository) for repository in
flattened_repos]` (elements evaluated left to right; the first raised
exception propagates). -/
def set_defaults_list (registry : String → String → String → List String)
    (force_latest_revision : Bool) (default_toolshed : String) :
    List RepoInfo → Except PyErr (List (Option CompletedRepo))
  | [] => .ok []
  | repository :: rest =>
    match set_defaults_in_repo_information registry force_latest_revision
        default_toolshed repository with
    | .error e => .error e
    | .ok r =>
      match set_defaults_list registry force_latest_revision default_toolshed rest with
      | .error e => .error e
      | .ok rs => .ok (r :: rs)

/-- The install loop of `install_tools` (`for repository in
not_installed_repos`), threading the poll counter `k` and the
`installed_repositories` / `errored_repositories` accumulators — lists
of key strings, because every accumulation site is a `list += dict`
(see `success_record_keys`).  Outcome classification on a
`ConnectionError e`: first the duplicate-install body test, then the
`"504" in e.message` test (which switches to `wait_for_install` with a
3600-second budget), else the generic error path. -/
def install_loop (env : Env) :
    List CompletedRepo → Nat → List String → List String →
    List String × List String
  | [], _, installed, errored => (installed, errored)
  | repository :: rest, k, installed, errored =>
    match install_repository_revision env.install repository with
    | (b, .ok _) =>
      install_loop env rest k
        (installed ++ success_record_keys (log_repository_install_success b)) errored
    | (b, .error e) =>
      if py_in default_err_msg e.body = true then
        install_loop env rest k installed errored
      else if py_in "504" e.message = true then
        let w := wait_for_install env.polls b 3600 k
        if w.1 then
          install_loop env rest w.2
            (installed ++ success_record_keys (log_repository_install_success b)) errored
        else
          install_loop env rest w.2 installed
            (errored ++ error_record_keys (log_repository_install_error b e.body))
      else
        install_loop env rest k installed
          (errored ++ error_record_keys (log_repository_install_error b e.body))

/-- The state of the three accumulator variables
(`installed_repositories`, `skipped_repositories`,
`errored_repositories`) of `install_tools` when control reaches the
"Log results" block, with the exceptions of the earlier stages
propagated: empty-batch `ValueError`, the normalization `NameError`,
and any filter `TypeError`.  The skip loop (`for skipped_repo in
already_installed_repos: skipped_repositories += ...`) runs before the
install loop. -/
def run_buckets (env : Env) (force_latest_revision : Bool)
    (default_toolshed : String) (tools : List RepoInfo) :
    Except PyErr (List String × List String × List String) :=
  if tools.isEmpty then
    .error (.valueError "Empty list of tools was given")
  else
    match set_defaults_list env.registry force_latest_revision default_toolshed
        (_flatten_repo_info tools) with
    | .error e => .error e
    | .ok repository_list_with_none =>
      match filter_installed_repos env.installed_tools completed_view
          (repository_list_with_none.filterMap id) with
      | .error e => .error e
      | .ok filtered =>
        .ok ((install_loop env filtered.1 0 [] []).1,
             filtered.2.flatMap (fun r => skip_record_keys (log_repository_install_skip r)),
             (install_loop env filtered.1 0 [] []).2)

/-- `InstallToolManager.install_tools(tools, ...)`.  The logger is
modelled as a no-op object, so the argument expressions of the final
`log.info` calls are still evaluated: the comprehension
`[(t['name'], ...) for t in installed_repositories]` indexes the
accumulated KEY STRINGS and raises `TypeError` as soon as one of the
three buckets is non-empty (installed first, then skipped, then
errored, in source order); with all three empty, the
`namedtuple("InstallResults", [...])` call raises `ValueError` because
its single field name is the comma-joined string.  The source therefore
never returns normally, which the result type `Except PyErr Empty`
records. -/
def install_tools (env : Env) (force_latest_revision : Bool)
    (default_toolshed : String) (tools : List RepoInfo) : Except PyErr Empty :=
  match run_buckets env force_latest_revision default_toolshed tools with
  | .error e => .error e
  | .ok buckets =>
    if buckets.1.isEmpty = false then .error .typeError
    else if buckets.2.1.isEmpty = false then .error .typeError
    else if buckets.2.2.isEmpty = false then .error .typeError
    else .error (.valueError "Type names and field names must be valid identifiers")

/-! ## Spec-side characterization of the recovery poll loop -/

/-- The decision extracted from the `k`-th inventory fetch of the
recovery loop (`some true` / `some false` when the first entry matching
the unit's name and owner has terminal status, `none` otherwise). -/
def poll_decision (polls : Nat → PollResult) (b : BioblendRepo) (k : Nat) : Option Bool :=
  (poll_step polls b k).1

/-- Seconds consumed by the `k`-th iteration of the recovery loop in the
discrete-time model: 1 for the fetch plus 10 per sleep. -/
def poll_cost (polls : Nat → PollResult) (b : BioblendRepo) (k : Nat) : Nat :=
  1 + 10 * (poll_step polls b k).2

/-- Seconds elapsed before the recovery loop reaches its `i`-th fetch,
starting from poll index `k`. -/
def elapsed_before (polls : Nat → PollResult) (b : BioblendRepo) (k i : Nat) : Nat :=
  ∑ j in Finset.range i, poll_cost polls b (k + j)

/-- The spec-side success condition of the recovery poll loop: within
the time budget, some fetch — no earlier fetch having produced a
terminal decision for this unit — observes as first matching terminal
entry one with status "Installed". -/
def recovery_finds_installed (polls : Nat → PollResult) (b : BioblendRepo)
    (timeout k : Nat) : Prop :=
  ∃ i, elapsed_before polls b k i < timeout ∧
    (∀ j < i, poll_decision polls b (k + j) = none) ∧
    poll_decision polls b (k + i) = some true

/-! ## Concrete instances used by counterexamples and witnesses -/

/-- The default `default_toolshed` argument of `install_tools`. -/
def default_toolshed : String := "https://toolshed.g2.bx.psu.edu/"

/-- An environment whose oracles are all inert. -/
def quiet_env : Env :=
  { registry := fun _ _ _ => []
    installed_tools := []
    install := fun _ => Except.ok ()
    polls := fun _ => PollResult.connErr }

/-- A desired spec listing two revisions. -/
def spec_two_revisions : RepoInfo :=
  { name := some "x", owner := some "o", revisions := some ["r1", "r2"] }

/-- The single dict `_flatten_repo_info` ends up appending twice for
`spec_two_revisions`: `revisions` popped, `changeset_revision` at the
last listed revision. -/
def unit_last_revision : RepoInfo :=
  { name := some "x", owner := some "o", changeset_revision := some "r2" }

/-- A fully identified unit for exercising the filter. -/
def c2_unit : RepoInfo :=
  { name := some "x", owner := some "o", changeset_revision := some "r",
    tool_shed_url := some "https://ts/" }

/-- An inventory entry that shares `c2_unit`'s revision but not its
name (so `the_same_repository` returns `False` without reaching the URL
test). -/
def c2_entry : RepoInfo :=
  { name := some "a", owner := some "o", changeset_revision := some "r",
    tool_shed := some "ts" }

/-- A desired spec missing the required `owner` key. -/
def missing_owner_tool : RepoInfo := { name := some "t1" }

/-- A desired spec with every field the pipeline needs. -/
def good_tool : RepoInfo :=
  { name := some "t2", owner := some "o", tool_panel_section_id := some "s",
    changeset_revision := some "r" }

/-- A completed unit handed to the install driver. -/
def repo504 : CompletedRepo :=
  { name := "x"
    owner := "o"
    tool_panel_section_id := some "s"
    tool_panel_section_label := none
    tool_shed_url := "https://ts/"
    changeset_revision := some "r2" }

/-- A stale errored inventory entry for the same name and owner. -/
def entry_error : InvEntry := { name := "x", owner := "o", status := "Error" }

/-- A successfully installed inventory entry for the same name and owner. -/
def entry_installed : InvEntry := { name := "x", owner := "o", status := "Installed" }

/-- Environment whose install call raises a 504 connection error and
whose inventory always lists an "Error" entry ahead of an "Installed"
entry for the unit's name and owner. -/
def env504 : Env :=
  { quiet_env with
    install := fun _ => Except.error { message := "504 Gateway Time-out", body := "boom" }
    polls := fun _ => PollResult.snap [entry_error, entry_installed] }

/-- Environment whose install call raises a 504 connection error and
whose inventory immediately reports the unit installed. -/
def env504ok : Env :=
  { quiet_env with
    install := fun _ => Except.error { message := "504 Gateway Time-out", body := "boom" }
    polls := fun _ => PollResult.snap [entry_installed] }

/-- A desired spec that completes to `repo504` (revision already set, so
no registry call is needed). -/
def tool504 : RepoInfo :=
  { name := some "x", owner := some "o", tool_panel_section_id := some "s",
    changeset_revision := some "r2", tool_shed_url := some "https://ts/" }

/-- Like `env504ok`, with one non-matching inventory entry so that the
filter bug does not drop the unit before the driver runs. -/
def env504run : Env :=
  { env504ok with installed_tools := [c2_entry] }

/-- Environment whose install call raises the benign duplicate-install
connection error. -/
def dup_env : Env :=
  { quiet_env with
    install := fun _ => Except.error { message := "m", body := default_err_msg } }

/-- A desired spec with no revision, to be resolved by the registry. -/
def unresolved_tool : RepoInfo :=
  { name := some "t6", owner := some "o", tool_panel_section_id := some "s" }

/-- What `complete_repo_information` makes of `unresolved_tool`. -/
def unresolved_completed : CompletedRepo :=
  { name := "t6"
    owner := "o"
    tool_panel_section_id := some "s"
    tool_panel_section_label := none
    tool_shed_url := default_toolshed
    changeset_revision := none }

/-- A record with full identity and a registry URL. -/
def c7_record : RepoInfo :=
  { name := some "n", owner := some "o", changeset_revision := some "r",
    tool_shed := some "u" }

/-- A record with full identity but no registry URL at all. -/
def c9_no_url : RepoInfo :=
  { name := some "n", owner := some "o", changeset_revision := some "r" }

/-! ## Claim theorems -/

/-- C1: refuted (code bug).  The claim says the i-th emitted unit carries
the i-th listed revision.  Because `_flatten_repo_info` appends the same
mutated dict once per revision, the spec `[name x, owner o, revisions
[r1, r2]]` flattens to two identical units, both at revision "r2"; no
emitted unit carries "r1", contradicting both the claim and the
function's own docstring ("one entry per tool revision"). -/
theorem flatten_emits_only_last_revision :
    _flatten_repo_info [spec_two_revisions] = [unit_last_revision, unit_last_revision] ∧
    unit_last_revision.changeset_revision = some "r2" ∧
    (∀ u ∈ _flatten_repo_info [spec_two_revisions], u.changeset_revision ≠ some "r1") := by
  decide

/-- C2: refuted (code bug).  `filter_installed_repos` appends the unit
once per inventory entry (the source lacks the `for`/`else`-with-`break`
of a partition), so against an empty inventory a unit lands in neither
output, and against a two-entry non-matching inventory it appears twice
in `not_installed_repos` — never "exactly once" as claimed. -/
theorem filter_not_a_partition :
    filter_installed_repos [] id [c2_unit] = .ok ([], []) ∧
    filter_installed_repos [c2_entry, c2_entry] id [c2_unit] =
      .ok ([c2_unit, c2_unit], []) := by
  exact ⟨rfl, rfl⟩

/-- C3: refuted (code bug).  When a unit fails field completion, the
`except KeyError` handler evaluates the enclosing local `start` before
it is ever assigned, so `install_tools` raises `NameError` and aborts
the whole batch: the failed unit is not recorded as errored and the
remaining units are never processed. -/
theorem normalization_failure_aborts_run :
    install_tools quiet_env false default_toolshed [missing_owner_tool, good_tool] =
      .error (.nameError "start") := by
  rfl

/-- C8: confirmed.  On an empty desired list `install_tools` raises
`ValueError` at once; the result is the same for every environment, so
no registry, inventory, install or poll oracle is ever consulted and no
report is produced. -/
theorem empty_tool_list_raises (env : Env) (force_latest_revision : Bool)
    (default_toolshed_arg : String) :
    install_tools env force_latest_revision default_toolshed_arg [] =
      .error (.valueError "Empty list of tools was given") :=
  rfl

/-- C10: confirmed.  `install_repository_revision` rewrites the caller's
dict before issuing the call: `tool_panel_section_label` is popped (the
result type `BioblendRepo` has no such key) and
`new_tool_panel_section_label` is added with its value; every other key
keeps its value.  The first conjunct group states the field frame; the
last states that the caller-visible dict state is the same whatever the
install call does (returns or raises), so the change persists. -/
theorem install_repository_revision_mutation
    (install : BioblendRepo → Except ConnErr Unit) (repository : CompletedRepo) :
    (install_repository_revision install repository).1.new_tool_panel_section_label =
        repository.tool_panel_section_label ∧
    (install_repository_revision install repository).1.name = repository.name ∧
    (install_repository_revision install repository).1.owner = repository.owner ∧
    (install_repository_revision install repository).1.tool_panel_section_id =
        repository.tool_panel_section_id ∧
    (install_repository_revision install repository).1.tool_shed_url =
        repository.tool_shed_url ∧
    (install_repository_revision install repository).1.changeset_revision =
        repository.changeset_revision ∧
    (∀ other : BioblendRepo → Except ConnErr Unit,
      (install_repository_revision other repository).1 =
        (install_repository_revision install repository).1) :=
  ⟨rfl, rfl, rfl, rfl, rfl, rfl, fun _ => rfl⟩

/-- The URL field of `the_same_repository` is absent exactly when the
record lacks both the `tool_shed` and `tool_shed_url` keys. -/
theorem repo_tool_shed_eq_none (r : RepoInfo) :
    repo_tool_shed r = none ↔ r.tool_shed = none ∧ r.tool_shed_url = none := by
  unfold repo_tool_shed
  cases h : r.tool_shed <;> simp [h]

/-- C7: confirmed.  `the_same_repository` is symmetric (result for
result, error included); it returns `True` only when the two records
agree on `changeset_revision`, `name` and `owner` and each carries a
registry-URL string of which one contains the other; and rewriting any
one of the three identity fields of a matching pair to a different
value makes the result `False`. -/
theorem same_repository_symmetric_exact :
    (∀ a b : RepoInfo, the_same_repository a b = the_same_repository b a) ∧
    (∀ a b : RepoInfo, the_same_repository a b = .ok true →
      a.changeset_revision = b.changeset_revision ∧ a.name = b.name ∧
      a.owner = b.owner ∧
      ∃ u v : String, repo_tool_shed a = some u ∧ repo_tool_shed b = some v ∧
        (py_in u v = true ∨ py_in v u = true)) ∧
    (∀ a b : RepoInfo, ∀ w : Option String, the_same_repository a b = .ok true →
      w ≠ a.changeset_revision →
      the_same_repository { a with changeset_revision := w } b = .ok false) ∧
    (∀ a b : RepoInfo, ∀ w : Option String, the_same_repository a b = .ok true →
      w ≠ a.name → the_same_repository { a with name := w } b = .ok false) ∧
    (∀ a b : RepoInfo, ∀ w : Option String, the_same_repository a b = .ok true →
      w ≠ a.owner → the_same_repository { a with owner := w } b = .ok false) := by
  refine ⟨?_, ?_, ?_, ?_, ?_⟩
  · intro a b
    unfold the_same_repository
    by_cases h1 : a.changeset_revision = b.changeset_revision
    · rw [if_pos h1, if_pos h1.symm]
      by_cases h2 : a.name = b.name
      · rw [if_pos h2, if_pos h2.symm]
        by_cases h3 : a.owner = b.owner
        · rw [if_pos h3, if_pos h3.symm]
          cases repo_tool_shed a <;> cases repo_tool_shed b <;>
            simp [Bool.or_comm]
        · rw [if_neg h3, if_neg (fun h => h3 h.symm)]
      · rw [if_neg h2, if_neg (fun h => h2 h.symm)]
    · rw [if_neg h1, if_neg (fun h => h1 h.symm)]
  · intro a b h
    unfold the_same_repository at h
    by_cases h1 : a.changeset_revision = b.changeset_revision
    · rw [if_pos h1] at h
      by_cases h2 : a.name = b.name
      · rw [if_pos h2] at h
        by_cases h3 : a.owner = b.owner
        · rw [if_pos h3] at h
          cases hu : repo_tool_shed a with
          | none => rw [hu] at h; cases repo_tool_shed b <;> simp_all
          | some u =>
            cases hv : repo_tool_shed b with
            | none => simp [hu, hv] at h
            | some v =>
              rw [hu, hv] at h
              refine ⟨h1, h2, h3, u, v, rfl, rfl, ?_⟩
              have hb : (py_in u v || py_in v u) = true := by
                simpa using h
              rcases Bool.or_eq_true_iff.mp hb with hl | hr
              · exact Or.inl hl
              · exact Or.inr hr
        · rw [if_neg h3] at h; simp at h
      · rw [if_neg h2] at h; simp at h
    · rw [if_neg h1] at h; simp at h
  · intro a b w h hw
    unfold the_same_repository at h
    by_cases h1 : a.changeset_revision = b.changeset_revision
    · unfold the_same_repository
      have : ({ a with changeset_revision := w } : RepoInfo).changeset_revision = w := rfl
      rw [this, if_neg (fun hc => hw (hc.trans h1.symm))]
    · rw [if_neg h1] at h; simp at h
  · intro a b w h hw
    unfold the_same_repository at h
    by_cases h1 : a.changeset_revision = b.changeset_revision
    · rw [if_pos h1] at h
      by_cases h2 : a.name = b.name
      · unfold the_same_repository
        rw [if_pos (show ({ a with name := w } : RepoInfo).changeset_revision =
          b.changeset_revision from h1)]
        rw [if_neg (show ¬ ({ a with name := w } : RepoInfo).name = b.name from
          fun hc => hw (hc.trans h2.symm))]
      · rw [if_neg h2] at h; simp at h
    · rw [if_neg h1] at h; simp at h
  · intro a b w h hw
    unfold the_same_repository at h
    by_cases h1 : a.changeset_revision = b.changeset_revision
    · rw [if_pos h1] at h
      by_cases h2 : a.name = b.name
      · rw [if_pos h2] at h
        by_cases h3 : a.owner = b.owner
        · unfold the_same_repository
          rw [if_pos (show ({ a with owner := w } : RepoInfo).changeset_revision =
            b.changeset_revision from h1)]
          rw [if_pos (show ({ a with owner := w } : RepoInfo).name = b.name from h2)]
          rw [if_neg (show ¬ ({ a with owner := w } : RepoInfo).owner = b.owner from
            fun hc => hw (hc.trans h3.symm))]
        · rw [if_neg h3] at h; simp at h
      · rw [if_neg h2] at h; simp at h
    · rw [if_neg h1] at h; simp at h

/-- Witness for C7: a matching pair with its name rewritten stops
matching. -/
theorem same_repository_symmetric_exact_witness :
    the_same_repository { c7_record with name := some "m" } c7_record = .ok false :=
  same_repository_symmetric_exact.2.2.2.1 c7_record c7_record (some "m")
    rfl (by decide)

/-- C9: confirmed.  For records agreeing on the three identity fields,
`the_same_repository` raises `TypeError` exactly when either record
lacks both the `tool_shed` and `tool_shed_url` keys (the Python `in`
test is then applied to `None`), and it returns a boolean when both
carry URL strings. -/
theorem same_repository_type_error_on_missing_url (a b : RepoInfo)
    (h1 : a.changeset_revision = b.changeset_revision)
    (h2 : a.name = b.name) (h3 : a.owner = b.owner) :
    (the_same_repository a b = .error .typeError ↔
      (a.tool_shed = none ∧ a.tool_shed_url = none) ∨
      (b.tool_shed = none ∧ b.tool_shed_url = none)) ∧
    (∀ u v : String, repo_tool_shed a = some u → repo_tool_shed b = some v →
      the_same_repository a b = .ok (py_in u v || py_in v u)) := by
  constructor
  · rw [← repo_tool_shed_eq_none, ← repo_tool_shed_eq_none]
    unfold the_same_repository
    rw [if_pos h1, if_pos h2, if_pos h3]
    cases hu : repo_tool_shed a <;> cases hv : repo_tool_shed b <;> simp
  · intro u v hu hv
    unfold the_same_repository
    rw [if_pos h1, if_pos h2, if_pos h3, hu, hv]

/-- Witness for C9: two records with matching identity and no URL keys
produce `TypeError`. -/
theorem same_repository_type_error_on_missing_url_witness :
    the_same_repository c9_no_url c9_no_url = .error .typeError :=
  ((same_repository_type_error_on_missing_url c9_no_url c9_no_url rfl rfl rfl).1).mpr
    (Or.inl ⟨rfl, rfl⟩)

/-- C5: confirmed.  A unit whose install call raises a connection error
whose body contains the fixed duplicate-install phrase is only logged:
processing it leaves the `installed` and `errored` accumulators and the
poll counter untouched and moves straight on to the rest of the batch
(first conjunct); and the skipped accumulator of the run depends only
on the registry and inventory oracles, never on the install call or on
the recovery polls, so this outcome cannot add to it either (second
conjunct). -/
theorem duplicate_install_unreported (env : Env) (repository : CompletedRepo)
    (e : ConnErr)
    (hinst : env.install (adjust_to_bioblend repository) = .error e)
    (hdup : py_in default_err_msg e.body = true) :
    (∀ (rest : List CompletedRepo) (k : Nat) (installed : List String)
        (errored : List String),
      install_loop env (repository :: rest) k installed errored =
        install_loop env rest k installed errored) ∧
    (∀ (enva envb : Env) (force : Bool) (dts : String) (tools : List RepoInfo),
      enva.registry = envb.registry → enva.installed_tools = envb.installed_tools →
      (run_buckets enva force dts tools).map (fun buckets => buckets.2.1) =
        (run_buckets envb force dts tools).map (fun buckets => buckets.2.1)) := by
  constructor
  · intro rest k installed errored
    simp [install_loop, install_repository_revision, hinst, hdup]
  · intro enva envb force dts tools h1 h2
    unfold run_buckets
    cases ht : tools.isEmpty
    · simp only [Bool.false_eq_true, if_false]
      rw [h1, h2]
      cases hsd : set_defaults_list envb.registry force dts (_flatten_repo_info tools) with
      | error pe => rfl
      | ok l =>
        cases hf : filter_installed_repos envb.installed_tools completed_view
            (l.filterMap id) with
        | error pe => simp only [hf]
        | ok pair => simp only [hf, Except.map]
    · simp

/-- Witness for C5: with the concrete duplicate-raising environment,
processing the unit is a no-op on the accumulators. -/
theorem duplicate_install_unreported_witness :
    install_loop dup_env [repo504] 0 [] [] = install_loop dup_env [] 0 [] [] :=
  (duplicate_install_unreported dup_env repo504
    { message := "m", body := default_err_msg } rfl rfl).1 [] 0 [] []

/-- Field completion preserves the unit's name. -/
theorem complete_repo_information_name (tool : RepoInfo) (dts : String) (req : Bool)
    (c : CompletedRepo) (h : complete_repo_information tool dts req = .ok c) :
    tool.name = some c.name := by
  unfold complete_repo_information at h
  split at h
  · exact absurd h (by simp)
  · rename_i n hn
    split at h
    · exact absurd h (by simp)
    · rename_i o ho
      split at h
      · exact absurd h (by simp)
      · injection h with h2
        rw [← h2]
        exact hn

/-- Revision resolution preserves the unit's name. -/
theorem get_changeset_revisions_name (registry : String → String → String → List String)
    (force : Bool) (c r : CompletedRepo)
    (h : get_changeset_revisions registry force c = some r) : r.name = c.name := by
  unfold get_changeset_revisions at h
  split at h
  · split at h
    · exact absurd h (by simp)
    · injection h with h2
      rw [← h2]
  · injection h with h2
    rw [← h2]

/-- A unit that survives the resolution stage keeps the name of the
flattened spec it came from. -/
theorem set_defaults_ok_some_name (registry : String → String → String → List String)
    (force : Bool) (dts : String) (v : RepoInfo) (r : CompletedRepo)
    (h : set_defaults_in_repo_information registry force dts v = .ok (some r)) :
    v.name = some r.name := by
  unfold set_defaults_in_repo_information at h
  cases hc : complete_repo_information v dts true with
  | error e => rw [hc] at h; cases e <;> simp at h
  | ok c =>
    rw [hc] at h
    have hg : get_changeset_revisions registry force c = some r := by
      simpa using h
    rw [get_changeset_revisions_name registry force c r hg]
    exact complete_repo_information_name v dts true c hc

/-- Every element of a successful resolution-stage output comes from
some flattened input spec. -/
theorem set_defaults_list_mem (registry : String → String → String → List String)
    (force : Bool) (dts : String) :
    ∀ (l : List RepoInfo) (l2 : List (Option CompletedRepo)),
      set_defaults_list registry force dts l = .ok l2 →
      ∀ x ∈ l2, ∃ v ∈ l, set_defaults_in_repo_information registry force dts v = .ok x
  | [], l2, h, x, hx => by
    unfold set_defaults_list at h
    cases h
    cases hx
  | repository :: rest, l2, h, x, hx => by
    unfold set_defaults_list at h
    cases hr : set_defaults_in_repo_information registry force dts repository with
    | error e => rw [hr] at h; exact absurd h (by simp)
    | ok r =>
      rw [hr] at h
      cases hrs : set_defaults_list registry force dts rest with
      | error e => rw [hrs] at h; exact absurd h (by simp)
      | ok rs =>
        rw [hrs] at h
        cases h
        rcases List.mem_cons.mp hx with hx1 | hx2
        · exact ⟨repository, List.mem_cons_self _ _, hx1 ▸ hr⟩
        · obtain ⟨v, hv, hveq⟩ := set_defaults_list_mem registry force dts rest rs hrs x hx2
          exact ⟨v, List.mem_cons_of_mem _ hv, hveq⟩

/-- Each element the inner filter loop appends to either output is the
current repo (or was already in the accumulator). -/
theorem filter_inner_sub {α : Type} (view : α → RepoInfo) (repo : α) :
    ∀ (installed : List RepoInfo) (acc res : List α × List α),
      filter_inner installed view repo acc = .ok res →
      (∀ x ∈ res.1, x ∈ acc.1 ∨ x = repo) ∧ (∀ x ∈ res.2, x ∈ acc.2 ∨ x = repo)
  | [], acc, res, h => by
    unfold filter_inner at h
    cases h
    exact ⟨fun x hx => Or.inl hx, fun x hx => Or.inl hx⟩
  | installed_tool :: rest, acc, res, h => by
    unfold filter_inner at h
    cases hs : the_same_repository installed_tool (view repo) with
    | error e => rw [hs] at h; exact absurd h (by simp)
    | ok same =>
      rw [hs] at h
      have ih := filter_inner_sub view repo rest
        (if same then (acc.1, acc.2 ++ [repo]) else (acc.1 ++ [repo], acc.2)) res h
      cases same
      · simp only [if_neg Bool.false_ne_true] at ih
        refine ⟨fun x hx => ?_, fun x hx => ih.2 x hx⟩
        rcases ih.1 x hx with h1 | h2
        · rcases List.mem_append.mp h1 with ha | hb
          · exact Or.inl ha
          · exact Or.inr (List.mem_singleton.mp hb)
        · exact Or.inr h2
      · simp only [if_pos rfl] at ih
        refine ⟨fun x hx => ih.1 x hx, fun x hx => ?_⟩
        rcases ih.2 x hx with h1 | h2
        · rcases List.mem_append.mp h1 with ha | hb
          · exact Or.inl ha
          · exact Or.inr (List.mem_singleton.mp hb)
        · exact Or.inr h2

/-- Each element of either filter output is one of the filtered repos
(or was already in the accumulator). -/
theorem filter_loop_sub {α : Type} (installed : List RepoInfo) (view : α → RepoInfo) :
    ∀ (repos : List α) (acc res : List α × List α),
      filter_loop installed view repos acc = .ok res →
      (∀ x ∈ res.1, x ∈ acc.1 ∨ x ∈ repos) ∧ (∀ x ∈ res.2, x ∈ acc.2 ∨ x ∈ repos)
  | [], acc, res, h => by
    unfold filter_loop at h
    cases h
    exact ⟨fun x hx => Or.inl hx, fun x hx => Or.inl hx⟩
  | repo :: rest, acc, res, h => by
    unfold filter_loop at h
    cases hi : filter_inner installed view repo acc with
    | error e => rw [hi] at h; exact absurd h (by simp)
    | ok acc2 =>
      rw [hi] at h
      have hinner := filter_inner_sub view repo installed acc acc2 hi
      have ih := filter_loop_sub installed view rest acc2 res h
      constructor
      · intro x hx
        rcases ih.1 x hx with h1 | h2
        · rcases hinner.1 x h1 with ha | hb
          · exact Or.inl ha
          · exact Or.inr (hb ▸ List.mem_cons_self _ _)
        · exact Or.inr (List.mem_cons_of_mem _ h2)
      · intro x hx
        rcases ih.2 x hx with h1 | h2
        · rcases hinner.2 x h1 with ha | hb
          · exact Or.inl ha
          · exact Or.inr (hb ▸ List.mem_cons_self _ _)
        · exact Or.inr (List.mem_cons_of_mem _ h2)

/-- C6: confirmed.  A unit that needs resolution (no revision yet, or
forced to latest) whose registry lookup returns the empty
installable-revisions list resolves to `None` and is dropped by the
`filterMap` over the resolution results, so — provided no other unit of
the batch carries the same name and survives — nothing with its name
reaches the filter, the skip loop or the install driver (first and
second conjuncts).  Everything after resolution (the filter, the three
run accumulators, and the final raise) is a function of the surviving
list alone, so a batch containing the dropped unit runs exactly like
one whose resolution never produced it (third conjunct). -/
theorem empty_registry_unit_dropped (env : Env) (force : Bool) (dts : String)
    (tools : List RepoInfo) (u : RepoInfo) (c : CompletedRepo)
    (l : List (Option CompletedRepo))
    (hc : complete_repo_information u dts true = .ok c)
    (hneed : c.changeset_revision = none ∨ force = true)
    (hreg : env.registry c.tool_shed_url c.name c.owner = [])
    (hothers : ∀ v ∈ _flatten_repo_info tools, v.name = some c.name →
      set_defaults_in_repo_information env.registry force dts v = .ok none)
    (hsd : set_defaults_list env.registry force dts (_flatten_repo_info tools) = .ok l) :
    set_defaults_in_repo_information env.registry force dts u = .ok none ∧
    (∀ r ∈ List.filterMap id l, CompletedRepo.name r ≠ c.name) ∧
    (∀ (tools2 : List RepoInfo) (l2 : List (Option CompletedRepo)),
      tools.isEmpty = false → tools2.isEmpty = false →
      set_defaults_list env.registry force dts (_flatten_repo_info tools2) = .ok l2 →
      List.filterMap id l2 = List.filterMap id l →
      run_buckets env force dts tools2 = run_buckets env force dts tools ∧
      install_tools env force dts tools2 = install_tools env force dts tools) := by
  have hcond : (c.changeset_revision.isNone || force) = true := by
    rcases hneed with h | h
    · simp [h]
    · simp [h]
  have hgcr : get_changeset_revisions env.registry force c = none := by
    unfold get_changeset_revisions
    rw [if_pos hcond, hreg]
    rfl
  have hdrop : set_defaults_in_repo_information env.registry force dts u = .ok none := by
    unfold set_defaults_in_repo_information
    rw [hc]
    dsimp only
    rw [hgcr]
  have hnames : ∀ r ∈ List.filterMap id l, CompletedRepo.name r ≠ c.name := by
    intro r hr hname
    obtain ⟨orr, hor, hsome⟩ := List.mem_filterMap.mp hr
    obtain ⟨v, hv, hveq⟩ :=
      set_defaults_list_mem env.registry force dts (_flatten_repo_info tools) l hsd orr hor
    rw [show orr = some r from hsome] at hveq
    have hvn : v.name = some r.name :=
      set_defaults_ok_some_name env.registry force dts v r hveq
    have hnone := hothers v hv (by rw [hvn, hname])
    rw [hnone] at hveq
    exact absurd hveq (by simp)
  refine ⟨hdrop, hnames, ?_⟩
  intro tools2 l2 ht ht2 hsd2 heq
  have hrb : run_buckets env force dts tools2 = run_buckets env force dts tools := by
    unfold run_buckets
    rw [ht, ht2]
    simp only [Bool.false_eq_true, if_false]
    rw [hsd, hsd2]
    dsimp only
    rw [heq]
  refine ⟨hrb, ?_⟩
  unfold install_tools
  rw [hrb]

/-- Witness for C6: a single unresolved unit against an empty registry
is dropped at resolution, nothing with its name survives, and the run
equals the run over the same surviving list. -/
theorem empty_registry_unit_dropped_witness :
    set_defaults_in_repo_information quiet_env.registry false default_toolshed
        unresolved_tool = .ok none ∧
    (∀ r ∈ List.filterMap id [(none : Option CompletedRepo)],
      CompletedRepo.name r ≠ unresolved_completed.name) ∧
    (∀ (tools2 : List RepoInfo) (l2 : List (Option CompletedRepo)),
      ([unresolved_tool] : List RepoInfo).isEmpty = false → tools2.isEmpty = false →
      set_defaults_list quiet_env.registry false default_toolshed
        (_flatten_repo_info tools2) = .ok l2 →
      List.filterMap id l2 = List.filterMap id [(none : Option CompletedRepo)] →
      run_buckets quiet_env false default_toolshed tools2 =
        run_buckets quiet_env false default_toolshed [unresolved_tool] ∧
      install_tools quiet_env false default_toolshed tools2 =
        install_tools quiet_env false default_toolshed [unresolved_tool]) :=
  empty_registry_unit_dropped quiet_env false default_toolshed [unresolved_tool]
    unresolved_tool unresolved_completed [none]
    rfl (Or.inl rfl) rfl
    (fun v hv _ => by
      rcases List.mem_singleton.mp hv with rfl
      rfl)
    rfl

/-- Splitting the elapsed time of the recovery loop at its first
iteration. -/
theorem elapsed_before_succ (polls : Nat → PollResult) (b : BioblendRepo)
    (k : Nat) : ∀ i : Nat,
    elapsed_before polls b k (i + 1) =
      poll_cost polls b k + elapsed_before polls b (k + 1) i := by
  intro i
  induction i with
  | zero => simp [elapsed_before]
  | succ n ihn =>
    have h1 : elapsed_before polls b k (n + 1 + 1) =
        elapsed_before polls b k (n + 1) + poll_cost polls b (k + (n + 1)) := by
      simp [elapsed_before, Finset.sum_range_succ]
    have h2 : elapsed_before polls b (k + 1) (n + 1) =
        elapsed_before polls b (k + 1) n + poll_cost polls b (k + 1 + n) := by
      simp [elapsed_before, Finset.sum_range_succ]
    have hidx : k + 1 + n = k + (n + 1) := by omega
    rw [h1, ihn, h2, hidx]
    omega

/-- The zero-budget recovery loop can find nothing. -/
theorem recovery_finds_installed_zero (polls : Nat → PollResult)
    (b : BioblendRepo) (k : Nat) : ¬ recovery_finds_installed polls b 0 k := by
  rintro ⟨i, h1, -, -⟩
  exact absurd h1 (by omega)

/-- When the snapshot scan decides `true`, some entry of the snapshot
matches the unit's name and owner with status "Installed". -/
theorem scan_repositories_installed (b : BioblendRepo) :
    ∀ (entries : List InvEntry) (s : Nat),
      scan_repositories b entries = (some true, s) →
      ∃ en ∈ entries, b.name = en.name ∧ en.owner = b.owner ∧ en.status = "Installed"
  | [], s, h => by
    unfold scan_repositories at h
    exact absurd h (by simp)
  | e :: es, s, h => by
    unfold scan_repositories at h
    by_cases hm : b.name = e.name ∧ e.owner = b.owner
    · rw [if_pos hm] at h
      by_cases hInst : e.status = "Installed"
      · exact ⟨e, List.mem_cons_self _ _, hm.1, hm.2, hInst⟩
      · rw [if_neg hInst] at h
        by_cases hErr : e.status = "Error"
        · rw [if_pos hErr] at h
          exact absurd h (by simp)
        · rw [if_neg hErr] at h
          have h1 : (scan_repositories b es).1 = some true := by
            have := congrArg Prod.fst h
            simpa using this
          have hes : scan_repositories b es =
              (some true, (scan_repositories b es).2) := by
            rw [← h1]
          obtain ⟨en, hen, hprops⟩ :=
            scan_repositories_installed b es (scan_repositories b es).2 hes
          exact ⟨en, List.mem_cons_of_mem _ hen, hprops⟩
    · rw [if_neg hm] at h
      obtain ⟨en, hen, hprops⟩ := scan_repositories_installed b es s h
      exact ⟨en, List.mem_cons_of_mem _ hen, hprops⟩

/-- A `some true` poll decision means that fetch returned a snapshot
holding a matching "Installed" entry. -/
theorem poll_decision_installed (polls : Nat → PollResult) (b : BioblendRepo)
    (m : Nat) (h : poll_decision polls b m = some true) :
    ∃ entries, polls m = .snap entries ∧ ∃ en ∈ entries,
      b.name = en.name ∧ en.owner = b.owner ∧ en.status = "Installed" := by
  unfold poll_decision poll_step at h
  cases hp : polls m with
  | connErr => rw [hp] at h; exact absurd h (by simp)
  | snap entries =>
    rw [hp] at h
    dsimp only at h
    have hscan : scan_repositories b entries =
        (some true, (scan_repositories b entries).2) := by
      rw [← h]
    exact ⟨entries, rfl, scan_repositories_installed b entries _ hscan⟩

/-- The recovery loop returns `true` exactly when, within the remaining
budget, a fetch whose predecessors were all undecided is the first to
see a matching terminal entry, with status "Installed". -/
theorem wait_loop_true_iff (polls : Nat → PollResult) (b : BioblendRepo) :
    ∀ (fuel remaining k : Nat), remaining ≤ fuel →
      ((wait_loop polls b fuel remaining k).1 = true ↔
        recovery_finds_installed polls b remaining k)
  | 0, remaining, k, hle => by
    have h0 : remaining = 0 := by omega
    subst h0
    unfold wait_loop
    simp only [Bool.false_eq_true, false_iff]
    exact recovery_finds_installed_zero polls b k
  | fuel + 1, 0, k, hle => by
    unfold wait_loop
    simp only [Bool.false_eq_true, false_iff]
    exact recovery_finds_installed_zero polls b k
  | fuel + 1, remaining + 1, k, hle => by
    unfold wait_loop
    cases hp : poll_step polls b k with
    | mk dec sleeps =>
      cases dec with
      | some decision =>
        cases decision
        · dsimp only
          simp only [Bool.false_eq_true, false_iff]
          rintro ⟨i, h1, h2, h3⟩
          match i with
          | 0 =>
            rw [show poll_decision polls b (k + 0) = some false from by
              simp [poll_decision, hp]] at h3
            exact absurd h3 (by simp)
          | i + 1 =>
            have := h2 0 (by omega)
            rw [show poll_decision polls b (k + 0) = some false from by
              simp [poll_decision, hp]] at this
            exact absurd this (by simp)
        · dsimp only
          simp only [true_iff]
          refine ⟨0, ?_, ?_, ?_⟩
          · simp [elapsed_before]
          · intro j hj
            exact absurd hj (by omega)
          · simp [poll_decision, hp]
      | none =>
        dsimp only
        have hle2 : remaining - 10 * sleeps ≤ fuel := by omega
        rw [wait_loop_true_iff polls b fuel (remaining - 10 * sleeps) (k + 1) hle2]
        have hdec : poll_decision polls b k = none := by simp [poll_decision, hp]
        have hcost : poll_cost polls b k = 1 + 10 * sleeps := by simp [poll_cost, hp]
        constructor
        · rintro ⟨i, h1, h2, h3⟩
          refine ⟨i + 1, ?_, ?_, ?_⟩
          · rw [elapsed_before_succ, hcost]
            omega
          · intro j hj
            match j with
            | 0 => simpa using hdec
            | j + 1 =>
              have hj2 := h2 j (by omega)
              have hidx : k + 1 + j = k + (j + 1) := by omega
              rw [hidx] at hj2
              exact hj2
          · have hidx : k + 1 + i = k + (i + 1) := by omega
            rw [hidx] at h3
            exact h3
        · rintro ⟨i, h1, h2, h3⟩
          match i with
          | 0 =>
            rw [show k + 0 = k from rfl, hdec] at h3
            exact absurd h3 (by simp)
          | i + 1 =>
            refine ⟨i, ?_, ?_, ?_⟩
            · rw [elapsed_before_succ, hcost] at h1
              omega
            · intro j hj
              have hj2 := h2 (j + 1) (by omega)
              have hidx : k + (j + 1) = k + 1 + j := by omega
              rw [hidx] at hj2
              exact hj2
            · have hidx : k + (i + 1) = k + 1 + i := by omega
              rw [hidx] at h3
              exact h3

/-- C4: refuted (code bug).  A full 504-recovery scenario, evaluated on
the faithful embedding.  First conjuncts: the install call raises a
connection error whose message contains "504" and the first inventory
poll already reports a matching "Installed" entry — the recovery path
the claim describes — yet the driver merely extends the
`installed_repositories` accumulator with the key strings of the
success dict (`list += dict`), so no record of the unit enters any
list; symmetrically, with a stale "Error" entry ahead of the
"Installed" one in every snapshot the errored accumulator receives the
error dict's keys (`wait_for_install` returns on the first matching
terminal entry).  Last conjunct: the complete run over such a unit
raises `TypeError` at the results-logging stage (`t['name']` on a key
string), so the unit is recorded in no list and no report exists. -/
theorem gateway_timeout_unit_never_recorded :
    env504ok.install (adjust_to_bioblend repo504) =
      .error { message := "504 Gateway Time-out", body := "boom" } ∧
    py_in "504" "504 Gateway Time-out" = true ∧
    (∀ k, env504ok.polls k = .snap [entry_installed]) ∧
    entry_installed.name = (adjust_to_bioblend repo504).name ∧
    entry_installed.owner = (adjust_to_bioblend repo504).owner ∧
    entry_installed.status = "Installed" ∧
    install_loop env504ok [repo504] 0 [] [] = (["name", "owner", "revision"], []) ∧
    (∀ k, env504.polls k = .snap [entry_error, entry_installed]) ∧
    install_loop env504 [repo504] 0 [] [] = ([], ["name", "owner", "revision", "error"]) ∧
    complete_repo_information tool504 default_toolshed true = .ok repo504 ∧
    install_tools env504run false default_toolshed [tool504] = .error .typeError :=
  ⟨rfl, rfl, fun _ => rfl, rfl, rfl, rfl, rfl, fun _ => rfl, rfl, rfl, rfl⟩

end ShedTools
